import Mathlib

/-!
The class itk::ValarrayImageContainer: a verification development for
`Code/Common/itkValarrayImageContainer.h`.

`ValarrayImageContainer<TElementIdentifier, TElement>` inherits privately from
`std::valarray<TElement>` and forwards a handful of member functions to it.  The
embedding has two layers:

* `std.valarray`: the part of the C++ standard library class the header calls
  (`[valarray.cons]`, `[valarray.access]`, `[valarray.members]`), with the buffer
  as a list of elements;
* `itk.ValarrayImageContainer`: the member functions of the header, each one
  forwarding to the `std.valarray` function the source names.

Element identifiers are natural numbers.  An access whose behaviour the standard
leaves undefined (an index that is not below `size()`) yields `none`.  The element
type's value-initialised object `T()` is `default`.
-/

namespace std

/-- The class `std::valarray<T>`: a buffer of `size()` elements. -/
structure valarray (T : Type) where
  /-- The elements, in index order. -/
  data : List T
deriving DecidableEq, Repr

/-- The address of one element of a buffer, as an offset from the buffer's start. -/
structure ElemRef where
  /-- Number of elements between the start of the buffer and the element. -/
  offset : Nat
deriving DecidableEq, Repr

/-- Pointer arithmetic `p + i`: the address `i` elements after `p`. -/
def ElemRef.add (p : ElemRef) (i : Nat) : ElemRef :=
  ⟨p.offset + i⟩

namespace valarray

variable {T : Type}

/-- The constructor `valarray()`: an array of zero length. -/
def ctor : valarray T :=
  ⟨[]⟩

/-- The constructor `explicit valarray(size_t n)`: an array of length `n` whose
elements are value-initialised. -/
def ctorN [Inhabited T] (n : Nat) : valarray T :=
  ⟨List.replicate n default⟩

/-- The constructor `valarray(const T& val, size_t n)`: an array of length `n` whose
elements are copies of `val`.  The value is the first parameter and the length the
second. -/
def ctorFill (val : T) (n : Nat) : valarray T :=
  ⟨List.replicate n val⟩

/-- The member `size()`: the number of elements. -/
def size (v : valarray T) : Nat :=
  v.data.length

/-- The member `T& operator[](size_t i)`: the address of element `i`.  The
behaviour is undefined unless `i < size()`. -/
def opIndex (v : valarray T) (i : Nat) : Option ElemRef :=
  if i < v.size then some ⟨i⟩ else none

/-- The member `const T& operator[](size_t i) const`: the value of element `i`.
The behaviour is undefined unless `i < size()`. -/
def opIndexConst (v : valarray T) (i : Nat) : Option T :=
  v.data[i]?

/-- Reading through an element address. -/
def load (v : valarray T) (r : ElemRef) : Option T :=
  v.data[r.offset]?

/-- Assigning through an element address. -/
def store (v : valarray T) (r : ElemRef) (x : T) : Option (valarray T) :=
  if r.offset < v.size then some ⟨v.data.set r.offset x⟩ else none

/-- The first effect of `resize`: the length of the array becomes `sz`.  The
standard leaves the elements' values at this point open; here the elements that
remain keep their values and the elements that have to be created are copies of
`c`. -/
def setLength (v : valarray T) (sz : Nat) (c : T) : valarray T :=
  ⟨v.data.take sz ++ List.replicate (sz - v.data.length) c⟩

/-- The second effect of `resize`: `c` is assigned to each element. -/
def assignAll (v : valarray T) (c : T) : valarray T :=
  ⟨v.data.map fun _ => c⟩

/-- The member `void resize(size_t sz, T c = T())`.  [valarray.members]: "Changes
the length of the `*this` array to `sz` and then assigns to each element the value
of the second argument." -/
def resize (v : valarray T) (sz : Nat) (c : T) : valarray T :=
  (v.setLength sz c).assignAll c

end valarray

end std

namespace itk

/-- The class `ValarrayImageContainer<TElementIdentifier, TElement>`.  Its state is
the `std::valarray<TElement>` base sub-object; the `Object` base (reference count,
modification time) takes no part in the member functions of the header. -/
structure ValarrayImageContainer (TElement : Type) where
  /-- The privately inherited `Valarray` base. -/
  toValarray : std.valarray TElement
deriving DecidableEq, Repr

namespace ValarrayImageContainer

variable {TElement : Type}

/-- The default constructor, `ValarrayImageContainer(): Valarray() {}`. -/
def ctor : ValarrayImageContainer TElement :=
  ⟨std.valarray.ctor⟩

/-- The constructor `ValarrayImageContainer(unsigned long n): Valarray(n) {}`. -/
def ctorN [Inhabited TElement] (n : Nat) : ValarrayImageContainer TElement :=
  ⟨std.valarray.ctorN n⟩

/-- The constructor
`ValarrayImageContainer(unsigned long n, const Element& x): Valarray(n, x) {}`.
The base is initialised with `n` as first and `x` as second argument.  The
two-argument constructor of `std::valarray` that accepts them is
`valarray(const T& val, size_t n)`, so the first argument is converted to the
element type and the second to `size_t`; `toElement` and `toSize` are these two
implicit conversions of the element type. -/
def ctorFill (toElement : Nat → TElement) (toSize : TElement → Nat) (n : Nat)
    (x : TElement) : ValarrayImageContainer TElement :=
  ⟨std.valarray.ctorFill (toElement n) (toSize x)⟩

/-- Modelled from the spec: `itkNewMacro(Self)` is defined in `itkMacro.h`, which is
not among the sources.  It declares the static member `New()`, which returns a
handle to an instance built by the default constructor. -/
def New : ValarrayImageContainer TElement :=
  ctor

/-- The mutable index operator, `TElement & operator[](const ElementIdentifier id)
{ return this->Valarray::operator[](id); }`: the address of element `id`. -/
def opIndex (c : ValarrayImageContainer TElement) (id : Nat) : Option std.ElemRef :=
  c.toValarray.opIndex id

/-- The read-only index operator,
`const TElement & operator[](const ElementIdentifier id) const
{ return this->Valarray::operator[](id); }`: the value of element `id`. -/
def opIndexConst (c : ValarrayImageContainer TElement) (id : Nat) : Option TElement :=
  c.toValarray.opIndexConst id

/-- The member `TElement *GetBufferPointer()
{ return &(this->Valarray::operator[](0)); }`: the address of element 0. -/
def GetBufferPointer (c : ValarrayImageContainer TElement) : Option std.ElemRef :=
  c.toValarray.opIndex 0

/-- The member `unsigned long Size(void) const { return this->Valarray::size(); }`. -/
def Size (c : ValarrayImageContainer TElement) : Nat :=
  c.toValarray.size

/-- The member `void Reserve(ElementIdentifier num) { this->Valarray::resize(num); }`.  The
second argument of `resize` takes its default, `T()`. -/
def Reserve [Inhabited TElement] (c : ValarrayImageContainer TElement) (num : Nat) :
    ValarrayImageContainer TElement :=
  ⟨c.toValarray.resize num default⟩

/-- The member
`void Squeeze(void) { this->Valarray::resize( this->Valarray::size() ); }`. -/
def Squeeze [Inhabited TElement] (c : ValarrayImageContainer TElement) :
    ValarrayImageContainer TElement :=
  ⟨c.toValarray.resize c.toValarray.size default⟩

/-- The statement `c[id] = x;`: the mutable index operator yields the address of
element `id` and `x` is assigned through it.  The result is the container after the
statement. -/
def writeAt (c : ValarrayImageContainer TElement) (id : Nat) (x : TElement) :
    Option (ValarrayImageContainer TElement) :=
  (c.opIndex id).bind fun r => (c.toValarray.store r x).map fun v => ⟨v⟩

/-- The expression `c[id]` read as a value through the mutable index operator.  The
result is the value read and the container after the read. -/
def readAt (c : ValarrayImageContainer TElement) (id : Nat) :
    Option (TElement × ValarrayImageContainer TElement) :=
  (c.opIndex id).bind fun r => (c.toValarray.load r).map fun v => (v, c)

/-- The expression `*p` for an element address `p` of the container: the value
read. -/
def loadPtr (c : ValarrayImageContainer TElement) (p : std.ElemRef) : Option TElement :=
  c.toValarray.load p

/-- The statement `*p = x;` for an element address `p` of the container.  The result
is the container after the statement. -/
def storePtr (c : ValarrayImageContainer TElement) (p : std.ElemRef) (x : TElement) :
    Option (ValarrayImageContainer TElement) :=
  (c.toValarray.store p x).map ValarrayImageContainer.mk

end ValarrayImageContainer

end itk

/-! Facts about the `std.valarray` layer. -/

namespace std.valarray

variable {T : Type}

theorem size_setLength (v : valarray T) (sz : Nat) (c : T) :
    (v.setLength sz c).size = sz := by
  simp only [setLength, size, List.length_append, List.length_take, List.length_replicate]
  omega

theorem data_assignAll (v : valarray T) (c : T) :
    (v.assignAll c).data = List.replicate v.size c := by
  simp [assignAll, size]

theorem data_resize (v : valarray T) (sz : Nat) (c : T) :
    (v.resize sz c).data = List.replicate sz c := by
  rw [resize, data_assignAll, size_setLength]

theorem size_resize (v : valarray T) (sz : Nat) (c : T) :
    (v.resize sz c).size = sz := by
  simp [size, data_resize]

theorem opIndexConst_resize (v : valarray T) (sz : Nat) (c : T) (i : Nat) (h : i < sz) :
    (v.resize sz c).opIndexConst i = some c := by
  simp [opIndexConst, data_resize, List.getElem?_replicate, h]

theorem store_opIndex (v : valarray T) (i : Nat) (x : T) (h : i < v.size) :
    (v.opIndex i).bind (fun r => v.store r x) = some ⟨v.data.set i x⟩ := by
  simp [opIndex, store, h]

end std.valarray

/-! Facts about the container that several later results use. -/

namespace itk.ValarrayImageContainer

variable {TElement : Type}

theorem data_Reserve [Inhabited TElement] (c : ValarrayImageContainer TElement) (num : Nat) :
    (c.Reserve num).toValarray.data = List.replicate num default := by
  simp [Reserve, std.valarray.data_resize]

theorem data_Squeeze [Inhabited TElement] (c : ValarrayImageContainer TElement) :
    c.Squeeze.toValarray.data = List.replicate c.Size default := by
  simp [Squeeze, Size, std.valarray.data_resize]

theorem writeAt_eq (c : ValarrayImageContainer TElement) (id : Nat) (x : TElement)
    (h : id < c.Size) :
    c.writeAt id x = some ⟨⟨c.toValarray.data.set id x⟩⟩ := by
  simp [writeAt, opIndex, std.valarray.opIndex, std.valarray.store, Size] at *
  simp [h]

theorem readAt_eq (c : ValarrayImageContainer TElement) (id : Nat) (h : id < c.Size) :
    c.readAt id = (c.opIndexConst id).map fun v => (v, c) := by
  simp [readAt, opIndex, opIndexConst, std.valarray.opIndex, std.valarray.load,
    std.valarray.opIndexConst, Size] at *
  simp [h]

theorem opIndexConst_of_lt (c : ValarrayImageContainer TElement) (id : Nat) (h : id < c.Size) :
    c.opIndexConst id = some (c.toValarray.data.get ⟨id, h⟩) := by
  simp [opIndexConst, std.valarray.opIndexConst, Size, std.valarray.size] at *

theorem eq_of_data_eq (a b : ValarrayImageContainer TElement)
    (h : a.toValarray.data = b.toValarray.data) : a = b := by
  cases a with
  | mk va =>
    cases b with
    | mk vb =>
      cases va
      cases vb
      simp_all

theorem GetBufferPointer_of_pos (c : ValarrayImageContainer TElement) (h : 0 < c.Size) :
    c.GetBufferPointer = some ⟨0⟩ := by
  have hs : 0 < c.toValarray.size := h
  simp only [GetBufferPointer, std.valarray.opIndex, if_pos hs]

theorem opIndex_of_lt (c : ValarrayImageContainer TElement) (id : Nat) (h : id < c.Size) :
    c.opIndex id = some ⟨id⟩ := by
  simp [opIndex, std.valarray.opIndex, Size] at *
  exact h

theorem opIndex_of_ge (c : ValarrayImageContainer TElement) (id : Nat) (h : c.Size ≤ id) :
    c.opIndex id = none := by
  simp [opIndex, std.valarray.opIndex, Size] at *
  exact h

theorem data_ctorFill (toElement : Nat → TElement) (toSize : TElement → Nat) (n : Nat)
    (x : TElement) :
    (ctorFill toElement toSize n x).toValarray.data =
      List.replicate (toSize x) (toElement n) :=
  rfl

theorem data_ctorN [Inhabited TElement] (n : Nat) :
    (ctorN n : ValarrayImageContainer TElement).toValarray.data =
      List.replicate n default :=
  rfl

end itk.ValarrayImageContainer

/-! The claims. -/

namespace itk.ValarrayImageContainer

variable {TElement : Type}

/-- C1, evaluated on the code.  The container holding the single value 7, reached
by `New()`, `Reserve(1)` and `c[0] = 7`, is grown by `Reserve(2)`: the size becomes
2 and element 0, which held 7, holds the default value 0 afterwards.  The prefix is
not preserved. -/
theorem Reserve_grow_resets_prefix :
    ∃ c : ValarrayImageContainer Int,
      (New.Reserve 1).writeAt 0 7 = some c ∧
      c.Size = 1 ∧ c.opIndexConst 0 = some 7 ∧
      (c.Reserve 2).Size = 2 ∧
      (c.Reserve 2).opIndexConst 0 = some 0 ∧
      (c.Reserve 2).opIndexConst 1 = some 0 ∧
      (c.Reserve 2).opIndexConst 0 ≠ c.opIndexConst 0 :=
  ⟨⟨⟨[7]⟩⟩, by decide⟩

/-- C2, evaluated on the code.  The container holding 1, 2, 3, 4, 5, reached by
`New()`, `Reserve(5)` and five index writes, is shrunk by `Reserve(2)`: the size
becomes 2, and elements 0 and 1, which held 1 and 2, hold the default value 0
afterwards.  The retained elements do not keep their values. -/
theorem Reserve_shrink_resets_retained :
    ∃ c : ValarrayImageContainer Int,
      (((((some (New.Reserve 5)).bind fun a => a.writeAt 0 1).bind
        fun a => a.writeAt 1 2).bind fun a => a.writeAt 2 3).bind
        fun a => a.writeAt 3 4).bind (fun a => a.writeAt 4 5) = some c ∧
      c.Size = 5 ∧ c.opIndexConst 0 = some 1 ∧ c.opIndexConst 1 = some 2 ∧
      (c.Reserve 2).Size = 2 ∧
      (c.Reserve 2).opIndexConst 0 = some 0 ∧
      (c.Reserve 2).opIndexConst 1 = some 0 :=
  ⟨⟨⟨[1, 2, 3, 4, 5]⟩⟩, by decide⟩

/-- C3, evaluated on the code.  Scenario D: after `New()`, `Reserve(3)` and the
writes of 1, 2, 3 at indices 0, 1, 2 the container holds 1, 2, 3; `Squeeze()` leaves
the size at 3 and every element at the default value 0. -/
theorem Squeeze_resets_values :
    ∃ c : ValarrayImageContainer Int,
      (((some (New.Reserve 3)).bind fun a => a.writeAt 0 1).bind
        fun a => a.writeAt 1 2).bind (fun a => a.writeAt 2 3) = some c ∧
      c.opIndexConst 0 = some 1 ∧ c.opIndexConst 1 = some 2 ∧
      c.opIndexConst 2 = some 3 ∧
      c.Squeeze.Size = 3 ∧
      c.Squeeze.opIndexConst 0 = some 0 ∧ c.Squeeze.opIndexConst 1 = some 0 ∧
      c.Squeeze.opIndexConst 2 = some 0 :=
  ⟨⟨⟨[1, 2, 3]⟩⟩, by decide⟩

/-- C4: `Squeeze()` never changes `Size()`. -/
theorem Squeeze_Size [Inhabited TElement] (c : ValarrayImageContainer TElement) :
    c.Squeeze.Size = c.Size := by
  simp [Squeeze, Size, std.valarray.size_resize]

/-- C5: after `Reserve(n)`, `Size() == n`, for every container and every `n`. -/
theorem Reserve_Size [Inhabited TElement] (c : ValarrayImageContainer TElement) (n : Nat) :
    (c.Reserve n).Size = n := by
  simp [Reserve, Size, std.valarray.size_resize]

/-- C6: for every container, every valid index `i` and every value `x`, the write
`c[i] = x` is defined, and afterwards index `i` reads `x`, through the read-only
index operator and through the mutable one. -/
theorem index_write_read (c : ValarrayImageContainer TElement) (i : Nat) (x : TElement)
    (h : i < c.Size) :
    ∃ c1, c.writeAt i x = some c1 ∧ c1.opIndexConst i = some x ∧
      c1.readAt i = some (x, c1) := by
  have hlen : i < c.toValarray.data.length := h
  have hget : (⟨⟨c.toValarray.data.set i x⟩⟩ : ValarrayImageContainer TElement).opIndexConst i
      = some x := by
    simp [opIndexConst, std.valarray.opIndexConst, hlen]
  refine ⟨⟨⟨c.toValarray.data.set i x⟩⟩, writeAt_eq c i x h, hget, ?_⟩
  rw [readAt_eq _ _ (by simpa [Size, std.valarray.size] using hlen), hget]
  rfl

/-- Witness for C6: after `Reserve(5)` on a fresh container, setting index 2 to 7
gives `container[2] == 7`. -/
theorem index_write_read_witness :
    2 < ((New : ValarrayImageContainer Int).Reserve 5).Size ∧
    ∃ c1, ((New : ValarrayImageContainer Int).Reserve 5).writeAt 2 7 = some c1 ∧
      c1.opIndexConst 2 = some 7 ∧ c1.readAt 2 = some (7, c1) :=
  ⟨by decide, index_write_read (New.Reserve 5) 2 7 (by decide)⟩

/-- C7: for every container, every valid index `i` and every value `x`, after the
write `c[i] = x` every other valid index `j` holds the value it held before. -/
theorem index_write_frame (c : ValarrayImageContainer TElement) (i j : Nat) (x : TElement)
    (hi : i < c.Size) (hj : j < c.Size) (hne : j ≠ i) :
    ∃ c1 v, c.writeAt i x = some c1 ∧ c.opIndexConst j = some v ∧
      c1.opIndexConst j = some v := by
  have hlen : j < c.toValarray.data.length := hj
  refine ⟨⟨⟨c.toValarray.data.set i x⟩⟩, c.toValarray.data.get ⟨j, hlen⟩,
    writeAt_eq c i x hi, opIndexConst_of_lt c j hj, ?_⟩
  simp [opIndexConst, std.valarray.opIndexConst, List.getElem?_set, Ne.symm hne, hlen]

/-- Witness for C7: after `Reserve(5)` on a fresh container and setting index 2 to
7, index 3 still holds what it held. -/
theorem index_write_frame_witness :
    2 < ((New : ValarrayImageContainer Int).Reserve 5).Size ∧
    3 < ((New : ValarrayImageContainer Int).Reserve 5).Size ∧ 3 ≠ 2 ∧
    ∃ c1 v, ((New : ValarrayImageContainer Int).Reserve 5).writeAt 2 7 = some c1 ∧
      ((New : ValarrayImageContainer Int).Reserve 5).opIndexConst 3 = some v ∧
      c1.opIndexConst 3 = some v :=
  ⟨by decide, by decide, by decide,
    index_write_frame (New.Reserve 5) 2 3 7 (by decide) (by decide) (by decide)⟩

/-- C8: the container built by the default constructor, which is what `New()`
returns, has `Size() == 0`. -/
theorem New_Size :
    (New : ValarrayImageContainer TElement).Size = 0 ∧
    (ctor : ValarrayImageContainer TElement).Size = 0 :=
  ⟨rfl, rfl⟩

/-- C9: for every `n`, `Reserve(n)` on a freshly created container gives
`Size() == n` and every element at an index below `n` equal to the element type's
default value. -/
theorem Reserve_New_default [Inhabited TElement] (n : Nat) :
    ((New : ValarrayImageContainer TElement).Reserve n).Size = n ∧
    ∀ i, i < n →
      ((New : ValarrayImageContainer TElement).Reserve n).opIndexConst i = some default := by
  refine ⟨by simp [Reserve, Size, std.valarray.size_resize], fun i hi => ?_⟩
  simp [Reserve, opIndexConst, std.valarray.opIndexConst_resize _ _ _ _ hi]

/-- Witness for C9, Scenario A: `Reserve(5)` on a fresh container of integers gives
size 5 and the default value 0 at index 4. -/
theorem Reserve_New_default_witness :
    4 < 5 ∧ ((New : ValarrayImageContainer Int).Reserve 5).Size = 5 ∧
    ((New : ValarrayImageContainer Int).Reserve 5).opIndexConst 4 = some 0 :=
  ⟨by decide, (Reserve_New_default 5).1, (Reserve_New_default 5).2 4 (by decide)⟩

/-- C10: for every container, every valid index `i` and every value `x`, the read of
`c[i]` and the write `c[i] = x` are both defined and both leave `Size()` as it
was. -/
theorem index_access_keeps_Size (c : ValarrayImageContainer TElement) (i : Nat)
    (x : TElement) (h : i < c.Size) :
    (∃ v c1, c.readAt i = some (v, c1) ∧ c1.Size = c.Size) ∧
    (∃ c2, c.writeAt i x = some c2 ∧ c2.Size = c.Size) := by
  have hlen : i < c.toValarray.data.length := h
  constructor
  · refine ⟨c.toValarray.data.get ⟨i, hlen⟩, c, ?_, rfl⟩
    rw [readAt_eq c i h, opIndexConst_of_lt c i h]
    rfl
  · refine ⟨⟨⟨c.toValarray.data.set i x⟩⟩, writeAt_eq c i x h, ?_⟩
    simp [Size, std.valarray.size]

/-- Witness for C10: reading and writing index 2 of a container of size 5. -/
theorem index_access_keeps_Size_witness :
    2 < ((New : ValarrayImageContainer Int).Reserve 5).Size ∧
    (∃ v c1, ((New : ValarrayImageContainer Int).Reserve 5).readAt 2 = some (v, c1) ∧
      c1.Size = ((New : ValarrayImageContainer Int).Reserve 5).Size) ∧
    (∃ c2, ((New : ValarrayImageContainer Int).Reserve 5).writeAt 2 7 = some c2 ∧
      c2.Size = ((New : ValarrayImageContainer Int).Reserve 5).Size) :=
  ⟨by decide, index_access_keeps_Size (New.Reserve 5) 2 7 (by decide)⟩

/-- C11: for every container and every index `i` below `Size()`, the mutable index
operator resolves to the address of an element of the buffer, through which a value
can be read and written, and the read-only index operator resolves to a value. -/
theorem valid_index_addressable (c : ValarrayImageContainer TElement) (i : Nat)
    (h : i < c.Size) :
    (∃ r, c.opIndex i = some r ∧ (∃ v, c.loadPtr r = some v) ∧
      ∀ x, ∃ c1, c.storePtr r x = some c1) ∧
    ∃ v, c.opIndexConst i = some v := by
  have hlen : i < c.toValarray.data.length := h
  refine ⟨⟨⟨i⟩, opIndex_of_lt c i h, ⟨c.toValarray.data.get ⟨i, hlen⟩, ?_⟩, fun x => ?_⟩,
    ⟨_, opIndexConst_of_lt c i h⟩⟩
  · simp [loadPtr, std.valarray.load, hlen]
  · exact ⟨⟨⟨c.toValarray.data.set i x⟩⟩, by simp [storePtr, std.valarray.store, std.valarray.size, hlen]⟩

/-- Witness for C11: index 4 of a container of size 5. -/
theorem valid_index_addressable_witness :
    4 < ((New : ValarrayImageContainer Int).Reserve 5).Size ∧
    (∃ r, ((New : ValarrayImageContainer Int).Reserve 5).opIndex 4 = some r ∧
      (∃ v, ((New : ValarrayImageContainer Int).Reserve 5).loadPtr r = some v) ∧
      ∀ x, ∃ c1, ((New : ValarrayImageContainer Int).Reserve 5).storePtr r x = some c1) ∧
    ∃ v, ((New : ValarrayImageContainer Int).Reserve 5).opIndexConst 4 = some v :=
  ⟨by decide, valid_index_addressable (New.Reserve 5) 4 (by decide)⟩

/-- C12: for every container with `Size() == n > 0` and every `i` below `n`,
`GetBufferPointer()` is defined, `GetBufferPointer() + i` is the address the mutable
index operator yields for `i`, reading through it gives the value the read-only
index operator gives, writing through it gives the container `c[i] = x` gives, and
the address `GetBufferPointer() + n` is past the last element. -/
theorem GetBufferPointer_contiguous (c : ValarrayImageContainer TElement) (n i : Nat)
    (hn : c.Size = n) (hpos : 0 < n) (hi : i < n) :
    ∃ p, c.GetBufferPointer = some p ∧
      c.opIndex i = some (p.add i) ∧
      c.loadPtr (p.add i) = c.opIndexConst i ∧
      (∀ x, c.storePtr (p.add i) x = c.writeAt i x) ∧
      c.loadPtr (p.add n) = none ∧ c.opIndex n = none := by
  subst hn
  have hlen : i < c.toValarray.data.length := hi
  refine ⟨⟨0⟩, GetBufferPointer_of_pos c hpos, ?_, ?_, fun x => ?_, ?_,
    opIndex_of_ge c _ (Nat.le_refl _)⟩
  · simpa [std.ElemRef.add] using opIndex_of_lt c i hi
  · simp [loadPtr, std.valarray.load, std.ElemRef.add, opIndexConst,
      std.valarray.opIndexConst]
  · rw [writeAt_eq c i x hi]
    simp [storePtr, std.valarray.store, std.ElemRef.add, std.valarray.size, hlen]
  · simp [loadPtr, std.valarray.load, std.ElemRef.add, Size, std.valarray.size]

/-- Witness for C12: offset 2 from the buffer pointer of a container of size 5. -/
theorem GetBufferPointer_contiguous_witness :
    ((New : ValarrayImageContainer Int).Reserve 5).Size = 5 ∧ 0 < 5 ∧ 2 < 5 ∧
    ∃ p, ((New : ValarrayImageContainer Int).Reserve 5).GetBufferPointer = some p ∧
      ((New : ValarrayImageContainer Int).Reserve 5).opIndex 2 = some (p.add 2) ∧
      ((New : ValarrayImageContainer Int).Reserve 5).loadPtr (p.add 2) =
        ((New : ValarrayImageContainer Int).Reserve 5).opIndexConst 2 ∧
      (∀ x, ((New : ValarrayImageContainer Int).Reserve 5).storePtr (p.add 2) x =
        ((New : ValarrayImageContainer Int).Reserve 5).writeAt 2 x) ∧
      ((New : ValarrayImageContainer Int).Reserve 5).loadPtr (p.add 5) = none ∧
      ((New : ValarrayImageContainer Int).Reserve 5).opIndex 5 = none :=
  ⟨by decide, by decide, by decide,
    GetBufferPointer_contiguous (New.Reserve 5) 5 2 (by decide) (by decide) (by decide)⟩

/-- C13: `GetBufferPointer()` yields the address of element 0 exactly when
`Size() > 0`, and its element-0 access is out of range exactly when `Size() == 0`;
the latter is the case for a freshly created container and after `Reserve(0)`. -/
theorem GetBufferPointer_valid_iff [Inhabited TElement] (c : ValarrayImageContainer TElement) :
    (c.GetBufferPointer = some ⟨0⟩ ↔ 0 < c.Size) ∧
    (c.GetBufferPointer = none ↔ c.Size = 0) ∧
    (New : ValarrayImageContainer TElement).GetBufferPointer = none ∧
    (c.Reserve 0).GetBufferPointer = none := by
  refine ⟨?_, ?_, rfl, ?_⟩
  · simp [GetBufferPointer, std.valarray.opIndex, Size, Nat.pos_iff_ne_zero]
  · simp [GetBufferPointer, std.valarray.opIndex, Size]
  · simp [GetBufferPointer, std.valarray.opIndex, Reserve, std.valarray.size_resize]

/-- C14: for every container, the state after `Squeeze()` is the state after
`Reserve(Size())`: the same size and the same element at every index. -/
theorem Squeeze_eq_Reserve_Size [Inhabited TElement] (c : ValarrayImageContainer TElement) :
    c.Squeeze = c.Reserve c.Size ∧
    c.Squeeze.Size = (c.Reserve c.Size).Size ∧
    ∀ i, c.Squeeze.opIndexConst i = (c.Reserve c.Size).opIndexConst i := by
  have h : c.Squeeze = c.Reserve c.Size :=
    eq_of_data_eq _ _ (by rw [data_Squeeze, data_Reserve])
  exact ⟨h, by rw [h], fun i => by rw [h]⟩

/-- C15: for all containers `c1`, `c2` and every `n`, `Reserve(n)` applied to `c1`
and to `c2` yields equal containers, and every element of the result at an index
below `n` equals the element type's default value. -/
theorem Reserve_forgets_contents [Inhabited TElement] (c1 c2 : ValarrayImageContainer TElement)
    (n : Nat) :
    c1.Reserve n = c2.Reserve n ∧
    ∀ i, i < n → (c1.Reserve n).opIndexConst i = some default := by
  refine ⟨eq_of_data_eq _ _ (by rw [data_Reserve, data_Reserve]), fun i hi => ?_⟩
  simp [Reserve, opIndexConst, std.valarray.opIndexConst_resize _ _ _ _ hi]

/-- Witness for C15: `Reserve(2)` on the container holding 1, 2, 3 and on the empty
container. -/
theorem Reserve_forgets_contents_witness :
    (⟨⟨[1, 2, 3]⟩⟩ : ValarrayImageContainer Int).Reserve 2 = New.Reserve 2 ∧
    1 < 2 ∧
    ((⟨⟨[1, 2, 3]⟩⟩ : ValarrayImageContainer Int).Reserve 2).opIndexConst 1 = some 0 :=
  ⟨(Reserve_forgets_contents ⟨⟨[1, 2, 3]⟩⟩ New 2).1, by decide,
    (Reserve_forgets_contents ⟨⟨[1, 2, 3]⟩⟩ New 2).2 1 (by decide)⟩

/-- C16: for every container and every `n`, `Reserve(n)` twice in a row leaves the
container in the state `Reserve(n)` once leaves it in. -/
theorem Reserve_idempotent [Inhabited TElement] (c : ValarrayImageContainer TElement)
    (n : Nat) :
    (c.Reserve n).Reserve n = c.Reserve n :=
  eq_of_data_eq _ _ (by rw [data_Reserve, data_Reserve])

/-- C17: for every container, `Squeeze()` twice in a row leaves the container in the
state `Squeeze()` once leaves it in. -/
theorem Squeeze_idempotent [Inhabited TElement] (c : ValarrayImageContainer TElement) :
    c.Squeeze.Squeeze = c.Squeeze := by
  apply eq_of_data_eq
  rw [data_Squeeze, data_Squeeze]
  simp [Size, Squeeze, std.valarray.size_resize]

/-- C18, evaluated on the code.  For the element type `unsigned long` both implicit
conversions are the identity.  `ValarrayImageContainer(2, 7)` forwards to
`Valarray(2, 7)`, the array of 7 elements equal to 2: the size is 7, not 2, and the
elements are 2, not 7.  `ValarrayImageContainer(3)` is the array of 3 elements equal
to the default value 0. -/
theorem ctorFill_swaps_arguments :
    (ctorFill id id 2 7 : ValarrayImageContainer Nat).Size = 7 ∧
    (ctorFill id id 2 7 : ValarrayImageContainer Nat).Size ≠ 2 ∧
    (ctorFill id id 2 7 : ValarrayImageContainer Nat).opIndexConst 0 = some 2 ∧
    (ctorFill id id 2 7 : ValarrayImageContainer Nat).opIndexConst 1 = some 2 ∧
    (ctorFill id id 2 7 : ValarrayImageContainer Nat).opIndexConst 6 = some 2 ∧
    (ctorFill id id 2 7 : ValarrayImageContainer Nat).opIndexConst 0 ≠ some 7 ∧
    (ctorN 3 : ValarrayImageContainer Nat) = ⟨⟨[0, 0, 0]⟩⟩ := by
  decide

end itk.ValarrayImageContainer
